import Mathlib

/-!
Verification of the cheque-payment reminder system (`main.py` and
`api/reminder.py`).  The Python code is shallowly embedded: cell values,
column names and URLs are strings, pandas tables are lists of rows, and the
wall clock is an explicit `CalDate` argument.  Library behaviour that the
code relies on (Python `str` methods, `strptime`-style date parsing for the
ten explicit formats, pandas `rename`/`to_datetime` semantics) is modelled
by the executable helpers below.
-/

namespace ReminderSys

/-! ## String utilities (models of the Python `str` operations used) -/

/-- Model of Python `str.lower()` (ASCII case folding, which is all the
source ever feeds it). -/
def strLower (s : String) : String := ⟨s.data.map Char.toLower⟩

/-- Model of Python `str.strip()` with no arguments. -/
def strStrip (s : String) : String :=
  ⟨(s.data.dropWhile Char.isWhitespace).reverse.dropWhile Char.isWhitespace |>.reverse⟩

/-- Containment of `pat` in `hay` as `pat in hay` in Python (substring). -/
def listContainsSub (pat : List Char) : List Char → Bool
  | [] => pat.isEmpty
  | c :: t => pat.isPrefixOf (c :: t) || listContainsSub pat t

/-- Model of the Python expression `pat in hay` on strings. -/
def strContains (hay pat : String) : Bool := listContainsSub pat.data hay.data

/-- Model of Python `hay.startswith(pat)`. -/
def strStarts (hay pat : String) : Bool := pat.data.isPrefixOf hay.data

/-- Model of Python `s.replace(a, b)` where `a` is a single character. -/
def replaceChar (a b : Char) (s : String) : String :=
  ⟨s.data.map (fun c => if c = a then b else c)⟩

/-- Model of Python `s.replace(a, '')` where `a` is a single character. -/
def removeChar (a : Char) (s : String) : String :=
  ⟨s.data.filter (fun c => c ≠ a)⟩

/-- Model of Python `s.replace(pat, rep)` for a multi-character pattern:
replace every non-overlapping occurrence, scanning left to right. -/
def replaceList (pat rep : List Char) : List Char → List Char
  | [] => []
  | c :: t =>
    if pat ≠ [] ∧ pat.isPrefixOf (c :: t) then
      rep ++ replaceList pat rep (t.drop (pat.length - 1))
    else
      c :: replaceList pat rep t
termination_by l => l.length
decreasing_by
  · simp only [List.length_drop, List.length_cons]
    omega
  · simp

/-- Model of Python `s.replace(pat, rep)` on strings. -/
def strReplace (s pat rep : String) : String := ⟨replaceList pat.data rep.data s.data⟩

/-- Splitter for Python `s.split()` (split on whitespace runs, dropping
empty pieces). The first argument accumulates the current word reversed. -/
def splitWsAux (cur : List Char) : List Char → List (List Char)
  | [] => if cur.isEmpty then [] else [cur.reverse]
  | c :: t =>
    if c.isWhitespace then
      if cur.isEmpty then splitWsAux [] t else cur.reverse :: splitWsAux [] t
    else
      splitWsAux (c :: cur) t

/-- Model of Python `s.split()`. -/
def splitWs (s : String) : List String := (splitWsAux [] s.data).map (⟨·⟩)

/-- Model of the Python idiom `' '.join(s.split())` used throughout the
source to collapse internal whitespace. -/
def collapseWs (s : String) : String :=
  ⟨(List.intercalate [' '] (splitWsAux [] s.data))⟩

/-- Model of Python `s.split(sep)` for a single-character separator
(empty pieces are kept, exactly as in Python). -/
def splitOnChar (sep : Char) : List Char → List (List Char)
  | [] => [[]]
  | c :: t =>
    let r := splitOnChar sep t
    if c = sep then [] :: r
    else
      match r with
      | h :: t' => (c :: h) :: t'
      | [] => [[c]]

/-- Digits-to-number conversion used by the date-token readers. -/
def digitsToNat (l : List Char) : Nat :=
  l.foldl (fun a c => a * 10 + (c.toNat - 48)) 0

/-! ## Calendar dates

The source stores due dates as pandas timestamps and compares the calendar
date with `today + timedelta(days=3)`.  We model a calendar date by its
components and give day arithmetic via the standard civil-calendar
conversion (days counted from 0000-03-01); all quantities are non-negative
for the years the system handles. -/

structure CalDate where
  year : Nat
  month : Nat
  day : Nat
deriving DecidableEq, Repr

/-- Rank of a civil date as a day count (epoch 0000-03-01). -/
def toRD (dt : CalDate) : Nat :=
  let y := if dt.month ≤ 2 then dt.year - 1 else dt.year
  let era := y / 400
  let yoe := y % 400
  let mp := (dt.month + 9) % 12
  let doy := (153 * mp + 2) / 5 + dt.day - 1
  let doe := yoe * 365 + yoe / 4 - yoe / 100 + doy
  era * 146097 + doe

/-- Civil date of a day count (inverse of `toRD` on valid dates). -/
def fromRD (z : Nat) : CalDate :=
  let era := z / 146097
  let doe := z % 146097
  let yoe := (doe - doe / 1460 + doe / 36524 - doe / 146096) / 365
  let y := yoe + era * 400
  let doy := doe - (365 * yoe + yoe / 4 - yoe / 100)
  let mp := (5 * doy + 2) / 153
  let d := doy - (153 * mp + 2) / 5 + 1
  let m := if mp < 10 then mp + 3 else mp - 9
  ⟨if m ≤ 2 then y + 1 else y, m, d⟩

/-- Model of `date + timedelta(days=n)`. -/
def addDays (dt : CalDate) (n : Nat) : CalDate := fromRD (toRD dt + n)

/-- Leap-year test (Gregorian). -/
def isLeap (y : Nat) : Bool := y % 4 = 0 && (y % 100 ≠ 0 || y % 400 = 0)

/-- Number of days in a month, used to validate parsed dates just as
`strptime`/pandas reject out-of-range days. -/
def daysInMonth (y m : Nat) : Nat :=
  if m = 2 then (if isLeap y then 29 else 28)
  else if m = 4 ∨ m = 6 ∨ m = 9 ∨ m = 11 then 30
  else 31

/-! ## Link Resolver

`convert_sharepoint_url_to_direct_download` and the candidate-list
construction at the top of `download_excel_file` (identical in `main.py`
lines 33-73 and `api/reminder.py` lines 16-56). -/

/-- The known-cloud-share test: the URL contains the host marker and one of
the two sharing-mode path segments (`main.py` line 38). -/
def sharePointPattern (u : String) : Bool :=
  strContains u "sharepoint.com" && (strContains u "/:x:/" || strContains u "/:b:/")

/-- `convert_sharepoint_url_to_direct_download` (`main.py` lines 33-55). -/
def convertSharePointUrlToDirectDownload (u : String) : String :=
  if sharePointPattern u then
    let d := if strContains u "/:x:/" then strReplace u "/:x:/" "/:b:/" else u
    if strContains d "download=1" then d
    else d ++ (if strContains d "?" then "&" else "?") ++ "download=1"
  else u

/-- Order-preserving de-duplication as `list(dict.fromkeys(urls))`: scan
left to right, keeping an element only when it has not been seen before. -/
def dedupKeepFirstAux (seen : List String) : List String → List String
  | [] => []
  | x :: xs =>
    if seen.contains x then dedupKeepFirstAux seen xs
    else x :: dedupKeepFirstAux (x :: seen) xs

/-- `list(dict.fromkeys(urls))` (`main.py` line 73). -/
def dedupKeepFirst (l : List String) : List String := dedupKeepFirstAux [] l

/-- `u.split('?')[0]` when `u` contains `'?'`, else `u` (`main.py` line 65). -/
def baseUrl (u : String) : String :=
  if strContains u "?" then ⟨u.data.takeWhile (fun c => c ≠ '?')⟩ else u

/-- The ordered candidate list built by `download_excel_file`
(`main.py` lines 60-73): original URL, transformed URL, base URL plus
`?download=1`, original plus `download=1` with the right separator,
then exact-string duplicates removed keeping first occurrences. -/
def urlsToTry (u : String) : List String :=
  dedupKeepFirst
    [u,
     convertSharePointUrlToDirectDownload u,
     baseUrl u ++ "?download=1",
     if strContains u "?" then u ++ "&download=1" else u ++ "?download=1"]

/-! ## Fetcher acceptance

The per-candidate acceptance tests of the two `download_excel_file`
implementations.  The response body is modelled as a string of bytes. -/

/-- Acceptance test of `main.py` `download_excel_file` (lines 91-106): the
candidate is returned iff the status is 200, the response is not HTML
(content-type containing `text/html` or body starting with the doctype
marker), the body exceeds 1000 bytes, and the content-type or the `PK`
magic indicates a spreadsheet. -/
def acceptResponseMain (status : Nat) (contentType body : String) : Bool :=
  let ct := strLower contentType
  status == 200 &&
  !(strContains ct "text/html" || strStarts body "<!DOCTYPE") &&
  (body.length > 1000 &&
    (strContains ct "excel" ||
     strContains ct "spreadsheet" ||
     strContains ct "vnd.openxmlformats" ||
     strContains ct "application/octet-stream" ||
     strStarts body "PK"))

/-- Acceptance test of `api/reminder.py` `download_excel_file`
(lines 70-79): status 200 and a spreadsheet-looking content-type or the
`PK` magic.  There is no HTML/doctype rejection and no size floor. -/
def acceptResponseApi (status : Nat) (contentType body : String) : Bool :=
  let ct := strLower contentType
  status == 200 &&
  (strContains ct "excel" ||
   strContains ct "spreadsheet" ||
   strContains ct "vnd.openxmlformats" ||
   strStarts body "PK")

/-! ## Header Locator

`find_header_row_and_columns` (`main.py` lines 121-206).  A sheet is a list
of rows of cell texts; a pandas NaN cell shows up as the string `"nan"`
after the `astype(str)` conversion the code performs. -/

/-- The two target logical labels (`main.py` line 131). -/
def targetColumns : List String := ["mode of payment", "payment due [date]"]

/-- `t.replace(' ', '').replace('[', '').replace(']', '').lower()`, the
normalisation of match tier (a) (`main.py` lines 145-146). -/
def stripSpacesBrackets (s : String) : String :=
  strLower (removeChar ']' (removeChar '[' (removeChar ' ' s)))

/-- Score contribution of one cleaned cell against one target label
(`main.py` lines 148-160): 2 for an exact match with spaces and brackets
stripped, 2 for an exact match of the full normalized text, 1 when the cell
contains every word of the bracket-stripped target. -/
def cellTargetScore (target cleanCell : String) : Nat :=
  if stripSpacesBrackets cleanCell == stripSpacesBrackets target then 2
  else if strLower cleanCell == target then 2
  else if (splitWs (removeChar ']' (removeChar '[' target))).all
            (fun w => strContains cleanCell w) then 1
  else 0

/-- Score of one raw cell: the row was already lower-cased and stripped
(`main.py` line 135); `nan` and empty cells are skipped (line 140). -/
def cellScore (cell : String) : Nat :=
  let c := strStrip (strLower cell)
  if c == "nan" || c == "" then 0
  else
    let clean := collapseWs c
    targetColumns.foldl (fun acc t => acc + cellTargetScore t clean) 0

/-- Total match score of a candidate header row (`matches` accumulated over
the row's cells, `main.py` lines 136-160). -/
def rowScore (row : List String) : Nat :=
  row.foldl (fun acc cell => acc + cellScore cell) 0

/-- The candidate rows: the first `min 6 n` rows whose score is positive
(`main.py` lines 134, 162-163). -/
def headerCandidates (grid : List (List String)) : List Nat :=
  (List.range (min 6 grid.length)).filter
    (fun i => decide (0 < rowScore (grid.getD i [])))

/-- Accumulator step of the candidate selection.  The source sorts the
candidate list by score descending with Python's stable sort and takes the
head (`main.py` lines 167-170); since the candidates are scanned in row
order, this is the first index attaining the maximal score, which this
left fold computes (a later candidate replaces the current best exactly
when its score is strictly greater). -/
def pickBest (f : Nat → Nat) : List Nat → Option Nat → Option Nat
  | [], acc => acc
  | i :: t, acc =>
    pickBest f t
      (match acc with
       | none => some i
       | some b => if f b < f i then some i else some b)

/-- The scored header selection of `find_header_row_and_columns`:
`some i` when some candidate row scored above zero and row `i` is the
best-scoring earliest one, `none` when no row scored (`main.py`
lines 162-185). -/
def findHeaderRow (grid : List (List String)) : Option Nat :=
  pickBest (fun i => rowScore (grid.getD i [])) (headerCandidates grid) none

/-- Column-name cleaning applied after the header row is fixed
(`main.py` lines 178-181): newline, carriage-return and non-breaking-space
characters become spaces, then whitespace is collapsed. -/
def cleanColName (s : String) : String :=
  collapseWs (strStrip (replaceChar '\xA0' ' ' (replaceChar '\r' ' ' (replaceChar '\n' ' ' s))))

/-- Header choice including the zero-score fallback (`main.py`
lines 186-202): when no candidate scored, try each of the first
`min 5 n` rows as header and accept the first yielding a non-empty
table (at least one data row below it). -/
def locateHeader (grid : List (List String)) : Option Nat :=
  match findHeaderRow grid with
  | some h => some h
  | none =>
    (List.range (min 5 grid.length)).find? (fun r => decide (r + 1 < grid.length))

/-! ## Column Resolver

The required-column search of `parse_excel_data` (`main.py` lines 221-295).
Each logical field is resolved by three strategies tried in order over the
column-name list. -/

/-- Strategy 1 (`main.py` lines 230-238): first column whose lower-cased,
stripped, whitespace-collapsed name equals the lower-cased target. -/
def resolveExact (reqCol : String) (cols : List String) : Option String :=
  let reqLower := strStrip (strLower reqCol)
  cols.find? (fun c => collapseWs (strStrip (strLower c)) == reqLower)

/-- Strategy 2 (`main.py` lines 240-247): first column whose lower-cased,
stripped, bracket-stripped name contains every word of the bracket-stripped
target. -/
def resolveAllWords (reqCol : String) (cols : List String) : Option String :=
  let reqWords := splitWs (removeChar ']' (removeChar '[' (strStrip (strLower reqCol))))
  cols.find? (fun c =>
    let cc := removeChar ']' (removeChar '[' (strStrip (strLower c)))
    reqWords.all (fun w => strContains cc w))

/-- Strategy 3 (`main.py` lines 249-275): the field-specific keyword
heuristics.  For the payment-mode field: the name contains one of
`payment`/`pay`/`mode` and none of `amount`/`due`/`reference`/`related`.
For the due-date field: all of `payment`,`due`,`date`; else both
`due`,`date`; else `payment`,`date` without `transfer`/`created`/`create`. -/
def resolveKeyword (reqCol : String) (cols : List String) : Option String :=
  if strLower reqCol == "mode of payment" then
    cols.find? (fun c =>
      let cc := strStrip (strLower c)
      (["payment", "pay", "mode"].any (fun k => strContains cc k)) &&
      !(["amount", "due", "reference", "related"].any (fun k => strContains cc k)))
  else if strLower reqCol == "payment due [date]" then
    cols.find? (fun c =>
      let cc := strStrip (strLower c)
      (strContains cc "payment" && strContains cc "due" && strContains cc "date") ||
      (strContains cc "due" && strContains cc "date") ||
      (strContains cc "payment" && strContains cc "date" &&
        !(["transfer", "created", "create"].any (fun k => strContains cc k))))
  else none

/-- The full per-field strategy chain (`main.py` lines 225-275). -/
def resolveColumn (reqCol : String) (cols : List String) : Option String :=
  match resolveExact reqCol cols with
  | some c => some c
  | none =>
    match resolveAllWords reqCol cols with
    | some c => some c
    | none => resolveKeyword reqCol cols

/-- pandas `df.rename(columns=mapping)`: a column named by a key of the
mapping is renamed to the associated value, every other name is kept;
unknown keys are silently ignored (`main.py` line 289). -/
def renameColumns (mapping : List (String × String)) (cols : List String) : List String :=
  cols.map (fun c => (mapping.lookup c).getD c)

/-- The resolution-plus-rename step of `parse_excel_data` (`main.py`
lines 222-295): resolve both required columns, build `column_mapping`
keyed by the logical names (line 278: `column_mapping[req_col] =
found_col`), apply `rename(columns=column_mapping)`, then fail unless both
logical names occur among the renamed columns (lines 291-295). -/
def resolveAndRename (cols : List String) : Option (List String) := do
  let m ← resolveColumn "Mode of Payment" cols
  let d ← resolveColumn "Payment Due [Date]" cols
  let mapping := [("Mode of Payment", m), ("Payment Due [Date]", d)]
  let newCols := renameColumns mapping cols
  let missing := ["Mode of Payment", "Payment Due [Date]"].filter
    (fun rc => !(newCols.contains rc))
  if missing.isEmpty then some newCols else none

/-! ## Date Normalizer

The date-parsing loop of `parse_excel_data` (`main.py` lines 318-366).
`pd.to_datetime(column, format=f, errors='coerce')` parses a string column
cell-wise, yielding `NaT` (here `none`) on failure — but when the column
already has datetime dtype it is returned unchanged and the format is
ignored.  The loop assigns the parsed column back into the dataframe as
soon as a format improves the count, so the raw strings are destroyed at
that point; the column state below records exactly this distinction. -/

inductive YearStyle | two | four
deriving DecidableEq, Repr

inductive MonthStyle | num | abbr
deriving DecidableEq, Repr

inductive FieldOrder | dmy | mdy | ymd
deriving DecidableEq, Repr

/-- One explicit `strptime`-style pattern: a single-character separator,
the component order, and the year/month token styles.  This covers the ten
formats listed at `main.py` lines 318-329. -/
structure DateFormatSpec where
  sep : Char
  order : FieldOrder
  ystyle : YearStyle
  mstyle : MonthStyle
deriving DecidableEq, Repr

/-- A 1-2 digit numeric token (`%d`, `%m`, `%y`). -/
def parseNum2 (tok : List Char) : Option Nat :=
  if tok ≠ [] ∧ tok.length ≤ 2 ∧ tok.all Char.isDigit then some (digitsToNat tok) else none

/-- A 4-digit numeric token (`%Y`). -/
def parseNum4 (tok : List Char) : Option Nat :=
  if tok.length = 4 ∧ tok.all Char.isDigit then some (digitsToNat tok) else none

/-- `%b`: a case-insensitive English month abbreviation. -/
def parseMonthAbbr (tok : List Char) : Option Nat :=
  match strLower ⟨tok⟩ with
  | "jan" => some 1 | "feb" => some 2 | "mar" => some 3 | "apr" => some 4
  | "may" => some 5 | "jun" => some 6 | "jul" => some 7 | "aug" => some 8
  | "sep" => some 9 | "oct" => some 10 | "nov" => some 11 | "dec" => some 12
  | _ => none

/-- `strptime`-style parse of one cell against one explicit pattern: split
on the separator, read the three tokens per the pattern, apply the `%y`
century pivot (00-68 ↦ 2000s, 69-99 ↦ 1900s), and validate the calendar
date as `strptime` does. -/
def applyFormat (f : DateFormatSpec) (s : String) : Option CalDate :=
  match splitOnChar f.sep s.data with
  | [a, b, c] =>
    let toks : List Char × List Char × List Char :=
      match f.order with
      | .dmy => (a, b, c)
      | .mdy => (b, a, c)
      | .ymd => (c, b, a)
    do
      let d ← parseNum2 toks.1
      let m ← match f.mstyle with
              | .num => parseNum2 toks.2.1
              | .abbr => parseMonthAbbr toks.2.1
      let y ← match f.ystyle with
              | .two => (parseNum2 toks.2.2).map (fun v => if v ≤ 68 then 2000 + v else 1900 + v)
              | .four => parseNum4 toks.2.2
      if 1 ≤ m ∧ m ≤ 12 ∧ 1 ≤ d ∧ d ≤ daysInMonth y m then some ⟨y, m, d⟩ else none
  | _ => none

/-- The candidate pattern list, in source order (`main.py` lines 318-329). -/
def dateFormats : List DateFormatSpec :=
  [⟨'-', .dmy, .two, .abbr⟩,   -- %d-%b-%y    22-Feb-25
   ⟨'-', .dmy, .four, .abbr⟩,  -- %d-%b-%Y    22-Feb-2025
   ⟨'/', .dmy, .two, .num⟩,    -- %d/%m/%y    22/02/25
   ⟨'/', .dmy, .four, .num⟩,   -- %d/%m/%Y    22/02/2025
   ⟨'-', .ymd, .four, .num⟩,   -- %Y-%m-%d    2025-02-22
   ⟨'/', .mdy, .four, .num⟩,   -- %m/%d/%Y    02/22/2025
   ⟨'.', .dmy, .four, .num⟩,   -- %d.%m.%Y    22.02.2025
   ⟨'/', .ymd, .four, .num⟩,   -- %Y/%m/%d    2025/02/22
   ⟨'-', .dmy, .two, .num⟩,    -- %d-%m-%y    22-02-25
   ⟨'-', .dmy, .four, .num⟩]   -- %d-%m-%Y    22-02-2025

/-- State of the due-date dataframe column: still the raw text cells, or
already overwritten with a parsed datetime column (failures as `none`). -/
inductive ColState
  | raw : List String → ColState
  | dt : List (Option CalDate) → ColState
deriving DecidableEq, Repr

/-- `pd.to_datetime(col, format=f, errors='coerce')`: cell-wise parse of a
text column; a datetime column is returned unchanged (the format argument
has no effect on it). -/
def toDatetimeFmt (f : DateFormatSpec) : ColState → List (Option CalDate)
  | .raw cs => cs.map (applyFormat f)
  | .dt ds => ds

/-- `pd.to_datetime(col, errors='coerce')` with no format: the permissive
parser `auto` on a text column; a datetime column is returned unchanged. -/
def toDatetimeAuto (auto : String → Option CalDate) : ColState → List (Option CalDate)
  | .raw cs => cs.map auto
  | .dt ds => ds

/-- Count of successfully parsed cells, `temp_dates.notna().sum()`. -/
def countSome (l : List (Option CalDate)) : Nat :=
  (l.filterMap id).length

/-- The format loop (`main.py` lines 331-351): for each pattern, parse the
current column state, and when the count strictly exceeds the best so far,
assign the parsed column into the dataframe (switching the state to `dt`)
and record the new best; a full parse short-circuits the loop. -/
def formatLoop : List DateFormatSpec → ColState → Nat → Nat → ColState × Nat
  | [], st, best, _ => (st, best)
  | f :: rest, st, best, n =>
    let temp := toDatetimeFmt f st
    let valid := countSome temp
    if best < valid then
      if valid = n then (.dt temp, valid)
      else formatLoop rest (.dt temp) valid n
    else formatLoop rest st best n

/-- The full date-normalization of the due-date column (`main.py`
lines 318-366): run the format loop; when the best count is below half the
rows, fall back to the automatic parse line 356 (a no-op once the column is
datetime); finally `dropna` keeps only parsed cells.  The `.raw` branch of
the final state is reachable only for an empty column. -/
def normalizeDates (auto : String → Option CalDate) (cells : List String) :
    List (Option CalDate) :=
  let n := cells.length
  let (st, parsed) := formatLoop dateFormats (.raw cells) 0 n
  if 2 * parsed < n then toDatetimeAuto auto st
  else
    match st with
    | .dt ds => ds
    | .raw cs => cs.map (fun _ => none)

/-- The due dates retained after `dropna(subset=['Payment Due [Date]'])`
(`main.py` line 366). -/
def retainedDates (auto : String → Option CalDate) (cells : List String) : List CalDate :=
  (normalizeDates auto cells).filterMap id

/-! ## Reminder Selector -/

/-- A working-table row restricted to the two logical columns. -/
structure PaymentRow where
  mode : String
  due : CalDate
deriving DecidableEq, Repr

/-- The cheque test (`main.py` lines 303-306): the lower-cased payment-mode
text matches the regex `cheque|check`, i.e. contains either word as a
substring. -/
def isChequeMode (s : String) : Bool :=
  strContains (strLower s) "cheque" || strContains (strLower s) "check"

/-- The cheque-payment filter applied in `parse_excel_data`
(`main.py` line 307). -/
def chequeFilter (rows : List PaymentRow) : List PaymentRow :=
  rows.filter (fun r => isChequeMode r.mode)

/-- `find_reminders_needed` (`main.py` lines 389-410): keep the rows whose
due date equals `today + timedelta(days=3)`; an empty or missing frame
yields an empty frame. -/
def findRemindersNeeded (today : CalDate) (rows : List PaymentRow) : List PaymentRow :=
  rows.filter (fun r => decide (r.due = addDays today 3))

/-- The two-stage selection the spec calls the Reminder Selector: the
cheque filter from `parse_excel_data` followed by the due-date filter of
`find_reminders_needed`. -/
def selectReminders (today : CalDate) (rows : List PaymentRow) : List PaymentRow :=
  findRemindersNeeded today (chequeFilter rows)

/-! ## Mail sending and the run result

The SMTP session itself is the external collaborator; a run's
per-recipient delivery results are modelled as a `List Bool` (one entry
per configured recipient, `true` when the send succeeded). -/

/-- The `success_count` accumulation of the recipient loop: start at 0 and
add one per successful delivery. -/
def countTrue (outcomes : List Bool) : Nat :=
  outcomes.foldl (fun n b => if b then n + 1 else n) 0

/-- `send_email` of `api/reminder.py` (lines 226-256), returning
`(success, emails_sent, attempts)`.  An empty reminder table returns
`(True, 0)` without entering the recipient loop, so no delivery attempt is
made; otherwise every recipient is attempted, successes are counted, and
success means at least one delivery succeeded. -/
def sendEmailApi (reminderData : List PaymentRow) (outcomes : List Bool) :
    Bool × Nat × Nat :=
  if reminderData.isEmpty then (true, 0, 0)
  else (decide (0 < countTrue outcomes), countTrue outcomes, outcomes.length)

/-- `send_email_reminder` of `main.py` (lines 468-502), returning
`(success, attempts)`.  Empty reminder data short-circuits to `True` with
no recipient loop; otherwise every recipient is attempted and the result is
`True` iff at least one send succeeded. -/
def sendEmailReminderMain (reminderData : List PaymentRow) (recipients : List String)
    (deliverOk : String → Bool) : Bool × Nat :=
  if reminderData.isEmpty then (true, 0)
  else
    let successCount := (recipients.filter deliverOk).length
    (decide (0 < successCount), recipients.length)

/-- The outcome record assembled by `run_reminder_check` in
`api/reminder.py`. -/
structure RunOutcome where
  success : Bool
  emailsSent : Nat
  remindersFound : Nat
deriving DecidableEq, Repr

/-- The email phase of `run_reminder_check` in `api/reminder.py`
(lines 327-347): when reminders were found, invoke `send_email`; if it
reports failure return `success=False` with `emails_sent=0` and
`reminders_found` the row count; otherwise report success with the counts. -/
def runEmailPhase (reminders : List PaymentRow) (outcomes : List Bool) : RunOutcome :=
  if !reminders.isEmpty then
    let res := sendEmailApi reminders outcomes
    if res.1 = false then ⟨false, 0, reminders.length⟩
    else ⟨true, res.2.1, reminders.length⟩
  else ⟨true, 0, reminders.length⟩

/-! ## The composed per-run pipeline (`main.py`)

`run_reminder_check` after the download: header location, column
resolution and rename, the cheque filter, date normalization, and the
due-in-3-days selection, as one pure function of the sheet grid, the
external permissive date parser, and today's date. -/

/-- `parse_excel_data` composed with `find_header_row_and_columns`
(`main.py` lines 121-387) on a raw cell grid.  Returns the cheque rows
with valid dates, restricted to the two logical columns. -/
def parseExcelData (grid : List (List String)) (auto : String → Option CalDate) :
    Option (List PaymentRow) := do
  let h ← locateHeader grid
  let cols := (grid.getD h []).map cleanColName
  let dataRows := grid.drop (h + 1)
  let newCols ← resolveAndRename cols
  let iMode ← newCols.findIdx? (fun c => c == "Mode of Payment")
  let iDate ← newCols.findIdx? (fun c => c == "Payment Due [Date]")
  let cells := dataRows.map (fun r => (r.getD iMode "", r.getD iDate ""))
  -- dropna(subset=required_columns, how='all') (line 300)
  let cells := cells.filter (fun p => !(p.1 == "" && p.2 == ""))
  let cheques := cells.filter (fun p => isChequeMode p.1)
  let dates := normalizeDates auto (cheques.map (fun p => p.2))
  some ((cheques.zip dates).filterMap
    (fun pd => pd.2.map (fun d => PaymentRow.mk pd.1.1 d)))

/-- The reminder computation of one run (`main.py` `run_reminder_check`,
lines 504-530, after the bytes are in hand): parse the sheet, then select
the rows due in exactly three days.  Its only inputs are the sheet
content, the external permissive date parser, and today's date — there is
no other state. -/
def runReminderCheckPure (grid : List (List String)) (auto : String → Option CalDate)
    (today : CalDate) : Option (List PaymentRow) :=
  (parseExcelData grid auto).map (findRemindersNeeded today)

/-! ## Helper lemmas about the candidate selection fold -/

theorem pickBest_mem (f : Nat → Nat) (l : List Nat) : ∀ (acc : Option Nat) (i : Nat),
    pickBest f l acc = some i → acc = some i ∨ i ∈ l := by
  induction l with
  | nil => intro acc i h; exact Or.inl h
  | cons x t ih =>
    intro acc i h
    cases acc with
    | none =>
      simp only [pickBest] at h
      rcases ih (some x) i h with h' | h'
      · obtain rfl := Option.some.inj h'
        exact Or.inr (List.mem_cons_self x t)
      · exact Or.inr (List.mem_cons_of_mem x h')
    | some b =>
      simp only [pickBest] at h
      by_cases hlt : f b < f x
      · rw [if_pos hlt] at h
        rcases ih (some x) i h with h' | h'
        · obtain rfl := Option.some.inj h'
          exact Or.inr (List.mem_cons_self x t)
        · exact Or.inr (List.mem_cons_of_mem x h')
      · rw [if_neg hlt] at h
        rcases ih (some b) i h with h' | h'
        · exact Or.inl h'
        · exact Or.inr (List.mem_cons_of_mem x h')

theorem pickBest_le (f : Nat → Nat) (l : List Nat) : ∀ (b i : Nat),
    pickBest f l (some b) = some i → f b ≤ f i ∧ ∀ j ∈ l, f j ≤ f i := by
  induction l with
  | nil =>
    intro b i h
    obtain rfl := Option.some.inj h
    exact ⟨Nat.le_refl _, by simp⟩
  | cons x t ih =>
    intro b i h
    simp only [pickBest] at h
    by_cases hlt : f b < f x
    · rw [if_pos hlt] at h
      obtain ⟨h1, h2⟩ := ih x i h
      refine ⟨Nat.le_of_lt (Nat.lt_of_lt_of_le hlt h1), ?_⟩
      intro j hj
      rcases List.mem_cons.mp hj with rfl | hj
      · exact h1
      · exact h2 j hj
    · rw [if_neg hlt] at h
      obtain ⟨h1, h2⟩ := ih b i h
      refine ⟨h1, ?_⟩
      intro j hj
      rcases List.mem_cons.mp hj with rfl | hj
      · exact Nat.le_trans (Nat.le_of_not_lt hlt) h1
      · exact h2 j hj

theorem pickBest_strict (f : Nat → Nat) (l : List Nat) : ∀ (b i : Nat),
    pickBest f l (some b) = some i → i = b ∨ (i ∈ l ∧ f b < f i) := by
  induction l with
  | nil =>
    intro b i h
    exact Or.inl (Option.some.inj h).symm
  | cons x t ih =>
    intro b i h
    simp only [pickBest] at h
    by_cases hlt : f b < f x
    · rw [if_pos hlt] at h
      rcases ih x i h with rfl | ⟨hm, hx⟩
      · exact Or.inr ⟨List.mem_cons_self i t, hlt⟩
      · exact Or.inr ⟨List.mem_cons_of_mem x hm, Nat.lt_trans hlt hx⟩
    · rw [if_neg hlt] at h
      rcases ih b i h with rfl | ⟨hm, hb⟩
      · exact Or.inl rfl
      · exact Or.inr ⟨List.mem_cons_of_mem x hm, hb⟩

theorem pickBest_tie (f : Nat → Nat) (l : List Nat) :
    l.Pairwise (· < ·) → ∀ (b i : Nat), pickBest f l (some b) = some i → i ≠ b →
      ∀ j ∈ l, f j = f i → i ≤ j := by
  induction l with
  | nil => intro _ b i _ _ j hj; exact absurd hj (List.not_mem_nil j)
  | cons x t ih =>
    intro hp b i h hne j hj hfj
    obtain ⟨hx, hpt⟩ := List.pairwise_cons.mp hp
    simp only [pickBest] at h
    by_cases hlt : f b < f x
    · rw [if_pos hlt] at h
      by_cases hix : i = x
      · subst hix
        rcases List.mem_cons.mp hj with rfl | hjt
        · exact Nat.le_refl _
        · exact Nat.le_of_lt (hx j hjt)
      · rcases pickBest_strict f t x i h with h' | ⟨_, hfx⟩
        · exact absurd h' hix
        · rcases List.mem_cons.mp hj with rfl | hjt
          · exact absurd hfj (Nat.ne_of_lt hfx)
          · exact ih hpt x i h hix j hjt hfj
    · rw [if_neg hlt] at h
      rcases pickBest_strict f t b i h with h' | ⟨_, hfb⟩
      · exact absurd h' hne
      · rcases List.mem_cons.mp hj with rfl | hjt
        · exact absurd hfj (Nat.ne_of_lt (Nat.lt_of_le_of_lt (Nat.le_of_not_lt hlt) hfb))
        · exact ih hpt b i h hne j hjt hfj

/-! ## Claim theorems -/

/-- C1: in `main.py` `parse_excel_data` the rename mapping is built with the
logical names as keys and the matched real column names as values, so
pandas `rename` maps logical → real, the opposite of what the claim states.
On a table with columns `Pay Mode` and `Due Date` both logical fields
resolve, the rename leaves both names unchanged (it does not produce
`Mode of Payment` / `Payment Due [Date]`), and the post-rename verification
then makes `parse_excel_data` fail with `None`. -/
theorem column_rename_direction_bug :
    resolveColumn "Mode of Payment" ["Pay Mode", "Due Date"] = some "Pay Mode"
    ∧ resolveColumn "Payment Due [Date]" ["Pay Mode", "Due Date"] = some "Due Date"
    ∧ renameColumns [("Mode of Payment", "Pay Mode"), ("Payment Due [Date]", "Due Date")]
        ["Pay Mode", "Due Date"] = ["Pay Mode", "Due Date"]
    ∧ resolveAndRename ["Pay Mode", "Due Date"] = none := by
  refine ⟨by decide, by decide, by decide, by decide⟩

/-- C2: on a column mixing one `22-Feb-25` value with three `22/02/2025`
values, the date loop of `parse_excel_data` keeps only the single row the
first pattern (`%d-%b-%y`) parsed — the assignment into the dataframe
destroys the raw strings, every later pattern (including the majority
pattern `%d/%m/%Y`, shown here to parse three of the four values) sees an
already-datetime column and cannot improve the count, and the automatic
fallback is likewise a no-op — so the majority format does not win. -/
theorem date_normalizer_first_format_wins :
    (∀ auto, retainedDates auto ["22-Feb-25", "22/02/2025", "23/02/2025", "24/02/2025"]
        = [⟨2025, 2, 22⟩])
    ∧ ((["22-Feb-25", "22/02/2025", "23/02/2025", "24/02/2025"].map
          (applyFormat ⟨'/', .dmy, .four, .num⟩)).filterMap id).length = 3 :=
  ⟨fun _ => rfl, by decide⟩

/-- C6: the layered strategies resolve `Pay Mode` to the payment-mode field
only at the keyword tier (exact and all-words both miss), resolve
`Due Date` to the due-date field only at the due+date keyword tier, and do
not resolve `Amount Mode` to the payment-mode field because of the
excluded keyword `amount`. -/
theorem column_resolver_keyword_paths :
    resolveExact "Mode of Payment" ["Pay Mode"] = none
    ∧ resolveAllWords "Mode of Payment" ["Pay Mode"] = none
    ∧ resolveKeyword "Mode of Payment" ["Pay Mode"] = some "Pay Mode"
    ∧ resolveColumn "Mode of Payment" ["Pay Mode"] = some "Pay Mode"
    ∧ resolveExact "Payment Due [Date]" ["Due Date"] = none
    ∧ resolveAllWords "Payment Due [Date]" ["Due Date"] = none
    ∧ resolveKeyword "Payment Due [Date]" ["Due Date"] = some "Due Date"
    ∧ resolveColumn "Payment Due [Date]" ["Due Date"] = some "Due Date"
    ∧ resolveColumn "Mode of Payment" ["Amount Mode"] = none := by
  refine ⟨by decide, by decide, by decide, by decide, by decide, by decide, by decide,
    by decide, by decide⟩

/-- C10: with an empty reminder selection both mail-sending routines report
success immediately — `main.py` `send_email_reminder` returns `True` and
`api/reminder.py` `send_email` returns `(True, 0)` — and make zero
delivery attempts (the attempt counters are 0), for any recipient list and
any delivery behaviour. -/
theorem empty_reminders_send_reports_success (recipients : List String)
    (deliverOk : String → Bool) (outcomes : List Bool) :
    sendEmailReminderMain [] recipients deliverOk = (true, 0)
    ∧ sendEmailApi [] outcomes = (true, 0, 0) :=
  ⟨rfl, rfl⟩

/-- C4 counterexample: the `api/reminder.py` fetcher accepts a response
whose body starts with the HTML doctype marker when the content-type header
claims a spreadsheet type, so the claim is false for that implementation. -/
theorem fetcher_api_accepts_doctype :
    acceptResponseApi 200 "application/vnd.openxmlformats-officedocument.spreadsheetml.sheet"
        "<!DOCTYPE html><html></html>" = true
    ∧ strStarts "<!DOCTYPE html><html></html>" "<!DOCTYPE" = true := by
  refine ⟨by decide, by decide⟩

/-- C4 (amended): the `main.py` fetcher never accepts a response whose body
starts with the `<!DOCTYPE` marker, whatever the status and content-type
header say. -/
theorem fetcher_main_rejects_doctype (status : Nat) (contentType body : String)
    (h : strStarts body "<!DOCTYPE" = true) :
    acceptResponseMain status contentType body = false := by
  simp [acceptResponseMain, h]

/-- C4 witness: concrete doctype-prefixed response rejected by the
`main.py` fetcher. -/
theorem fetcher_main_rejects_doctype_w :
    strStarts "<!DOCTYPE html>" "<!DOCTYPE" = true
    ∧ acceptResponseMain 200 "application/octet-stream" "<!DOCTYPE html>" = false :=
  ⟨by decide, fetcher_main_rejects_doctype 200 "application/octet-stream" "<!DOCTYPE html>"
      (by decide)⟩

/-- C7 counterexample: for a URL that does not match the cloud-share
pattern, the candidate list still contains the `?download=1` fallback in
addition to the original URL, so it is not the original URL alone. -/
theorem link_resolver_extra_candidates :
    sharePointPattern "https://example.com/files/report.xlsx" = false
    ∧ urlsToTry "https://example.com/files/report.xlsx"
        = ["https://example.com/files/report.xlsx",
           "https://example.com/files/report.xlsx?download=1"]
    ∧ urlsToTry "https://example.com/files/report.xlsx"
        ≠ ["https://example.com/files/report.xlsx"] := by
  refine ⟨by decide, by decide, by decide⟩

/-- C7 (amended): for URLs not matching the cloud-share pattern no error is
raised — the URL transform returns the original URL unchanged and the
candidate list is well defined with the original URL as its first
candidate (followed by the `download=1` fallback variants). -/
theorem link_resolver_no_match_keeps_original (u : String)
    (h : sharePointPattern u = false) :
    convertSharePointUrlToDirectDownload u = u ∧ (urlsToTry u).head? = some u := by
  constructor
  · simp [convertSharePointUrlToDirectDownload, h]
  · rfl

/-- C7 witness: a concrete non-matching URL passes through unchanged and
heads its own candidate list. -/
theorem link_resolver_no_match_keeps_original_w :
    sharePointPattern "http://host/data.bin" = false
    ∧ convertSharePointUrlToDirectDownload "http://host/data.bin" = "http://host/data.bin"
    ∧ (urlsToTry "http://host/data.bin").head? = some "http://host/data.bin" := by
  have h : sharePointPattern "http://host/data.bin" = false := by decide
  obtain ⟨h1, h2⟩ := link_resolver_no_match_keeps_original "http://host/data.bin" h
  exact ⟨h, h1, h2⟩

/-- C3: the Reminder Selector keeps exactly the rows whose payment-mode
text contains `cheque` or `check` case-insensitively as a substring and
whose due date is today plus three days; among due dates today, today+2,
today+3, today+4 only the today+3 row survives; among modes `Cheque`,
`CHECK`, `NEFT` only the first two pass the cheque test; and the empty
table yields an empty selection rather than an error. -/
theorem reminder_selector_spec :
    (∀ (today : CalDate) (rows : List PaymentRow) (r : PaymentRow),
        r ∈ selectReminders today rows ↔
          r ∈ rows ∧ isChequeMode r.mode = true ∧ r.due = addDays today 3)
    ∧ selectReminders ⟨2025, 2, 19⟩
        [⟨"Cheque", ⟨2025, 2, 19⟩⟩, ⟨"Cheque", ⟨2025, 2, 21⟩⟩,
         ⟨"Cheque", ⟨2025, 2, 22⟩⟩, ⟨"Cheque", ⟨2025, 2, 23⟩⟩]
        = [⟨"Cheque", ⟨2025, 2, 22⟩⟩]
    ∧ chequeFilter [⟨"Cheque", ⟨2025, 2, 22⟩⟩, ⟨"CHECK", ⟨2025, 2, 22⟩⟩,
        ⟨"NEFT", ⟨2025, 2, 22⟩⟩]
        = [⟨"Cheque", ⟨2025, 2, 22⟩⟩, ⟨"CHECK", ⟨2025, 2, 22⟩⟩]
    ∧ (∀ today, selectReminders today [] = []) := by
  refine ⟨?_, by decide, by decide, fun _ => rfl⟩
  intro today rows r
  simp only [selectReminders, findRemindersNeeded, chequeFilter, List.mem_filter,
    decide_eq_true_eq, and_assoc]

/-- C5: whenever the scored header search of
`find_header_row_and_columns` returns a row, that row is among the first
`min 6 n` candidates, its score is strictly positive, no scanned candidate
scores higher, and any candidate with an equal score has an index at least
as large (ties break to the lowest row index). -/
theorem header_row_selection (grid : List (List String)) (i : Nat)
    (h : findHeaderRow grid = some i) :
    0 < rowScore (grid.getD i []) ∧ i < min 6 grid.length ∧
    ∀ j, j < min 6 grid.length →
      rowScore (grid.getD j []) ≤ rowScore (grid.getD i []) ∧
      (rowScore (grid.getD j []) = rowScore (grid.getD i []) → i ≤ j) := by
  have hcand : ∀ k, k ∈ headerCandidates grid ↔
      k < min 6 grid.length ∧ 0 < rowScore (grid.getD k []) := by
    intro k
    simp [headerCandidates, List.mem_filter, List.mem_range]
  have hpw : (headerCandidates grid).Pairwise (· < ·) := by
    unfold headerCandidates
    exact (List.pairwise_lt_range _).sublist (List.filter_sublist _)
  unfold findHeaderRow at h
  rcases hl : headerCandidates grid with _ | ⟨x, t⟩
  · rw [hl] at h
    simp [pickBest] at h
  · rw [hl] at h
    simp only [pickBest] at h
    rw [hl] at hpw
    obtain ⟨hxlt, hpt⟩ := List.pairwise_cons.mp hpw
    have himem : i ∈ x :: t := by
      rcases pickBest_mem (fun k => rowScore (grid.getD k [])) t (some x) i h with h' | h'
      · obtain rfl := Option.some.inj h'
        exact List.mem_cons_self x t
      · exact List.mem_cons_of_mem x h'
    have hic : i < min 6 grid.length ∧ 0 < rowScore (grid.getD i []) := by
      apply (hcand i).mp
      rw [hl]
      exact himem
    obtain ⟨hxle, hmax⟩ := pickBest_le (fun k => rowScore (grid.getD k [])) t x i h
    have hmaxall : ∀ j ∈ x :: t, rowScore (grid.getD j []) ≤ rowScore (grid.getD i []) := by
      intro j hj
      rcases List.mem_cons.mp hj with rfl | hjt
      · exact hxle
      · exact hmax j hjt
    have htieall : ∀ j ∈ x :: t,
        rowScore (grid.getD j []) = rowScore (grid.getD i []) → i ≤ j := by
      intro j hj hfj
      by_cases hix : i = x
      · subst hix
        rcases List.mem_cons.mp hj with rfl | hjt
        · exact Nat.le_refl _
        · exact Nat.le_of_lt (hxlt j hjt)
      · rcases List.mem_cons.mp hj with hjx | hjt
        · rw [hjx] at hfj ⊢
          rcases pickBest_strict (fun k => rowScore (grid.getD k [])) t x i h with h' | ⟨_, hfx⟩
          · exact absurd h' hix
          · exact absurd hfj (Nat.ne_of_lt hfx)
        · exact pickBest_tie (fun k => rowScore (grid.getD k [])) t hpt x i h hix j hjt hfj
    refine ⟨hic.2, hic.1, ?_⟩
    intro j hj
    by_cases hjpos : 0 < rowScore (grid.getD j [])
    · have hjc : j ∈ x :: t := by
        rw [← hl]
        exact (hcand j).mpr ⟨hj, hjpos⟩
      exact ⟨hmaxall j hjc, htieall j hjc⟩
    · have hz : rowScore (grid.getD j []) = 0 := Nat.eq_zero_of_not_pos hjpos
      constructor
      · rw [hz]
        exact Nat.zero_le _
      · intro heq
        rw [hz] at heq
        exact absurd heq.symm (Nat.ne_of_gt hic.2)

/-- C5 witness: the spec's test sheet, whose row 2 holds the two target
labels among filler cells, is selected with a positive score. -/
theorem header_row_selection_w :
    findHeaderRow [["x", "y"], ["a", ""],
      ["S.No", "Mode of Payment", "Amount", "Payment Due [Date]"]] = some 2
    ∧ 0 < rowScore ([["x", "y"], ["a", ""],
        ["S.No", "Mode of Payment", "Amount", "Payment Due [Date]"]].getD 2 []) := by
  have h : findHeaderRow [["x", "y"], ["a", ""],
      ["S.No", "Mode of Payment", "Amount", "Payment Due [Date]"]] = some 2 := by decide
  exact ⟨h, (header_row_selection _ 2 h).1⟩

/-- C8: when reminders were found, the `api/reminder.py` run reports
success exactly when at least one recipient delivery succeeded; and when
every recipient fails, the run result has `success = false` while
`reminders_found` still equals the number of reminder rows. -/
theorem run_email_success_iff (reminders : List PaymentRow) (outcomes : List Bool)
    (h : reminders ≠ []) :
    (((runEmailPhase reminders outcomes).success = true) ↔ 0 < countTrue outcomes)
    ∧ (countTrue outcomes = 0 →
        (runEmailPhase reminders outcomes).success = false ∧
        (runEmailPhase reminders outcomes).remindersFound = reminders.length) := by
  have hne : reminders.isEmpty = false := by
    cases reminders with
    | nil => exact absurd rfl h
    | cons a l => rfl
  rcases Nat.eq_zero_or_pos (countTrue outcomes) with hzero | hpos
  · simp [runEmailPhase, sendEmailApi, hne, hzero]
  · have hz' : countTrue outcomes ≠ 0 := Nat.pos_iff_ne_zero.mp hpos
    simp [runEmailPhase, sendEmailApi, hne, hpos, hz']

/-- C8 witness: one reminder row, both recipients failing — the run reports
failure with the reminder count preserved. -/
theorem run_email_success_iff_w :
    (([⟨"Cheque", ⟨2025, 2, 22⟩⟩] : List PaymentRow) ≠ [])
    ∧ ((((runEmailPhase [⟨"Cheque", ⟨2025, 2, 22⟩⟩] [false, false]).success = true) ↔
          0 < countTrue [false, false])
       ∧ (countTrue [false, false] = 0 →
            (runEmailPhase [⟨"Cheque", ⟨2025, 2, 22⟩⟩] [false, false]).success = false ∧
            (runEmailPhase [⟨"Cheque", ⟨2025, 2, 22⟩⟩] [false, false]).remindersFound
              = ([⟨"Cheque", ⟨2025, 2, 22⟩⟩] : List PaymentRow).length)) :=
  ⟨by decide, run_email_success_iff _ _ (by decide)⟩

/-- C9: the per-run reminder computation is a pure function of the sheet
content, the (library-supplied) permissive date parser, and today's date:
two runs over byte-identical content with the same date select the same
reminder rows — no state is carried between runs. -/
theorem run_check_deterministic (g g' : List (List String))
    (a a' : String → Option CalDate) (d d' : CalDate)
    (hg : g = g') (ha : a = a') (hd : d = d') :
    runReminderCheckPure g a d = runReminderCheckPure g' a' d' := by
  subst hg
  subst ha
  subst hd
  rfl

/-- C9 witness: two invocations on the same concrete sheet and date agree. -/
theorem run_check_deterministic_w :
    runReminderCheckPure
        [["S.No", "Mode of Payment", "Amount", "Payment Due [Date]"],
         ["1", "Cheque", "1000", "22-Feb-25"]]
        (fun _ => none) ⟨2025, 2, 19⟩
      = runReminderCheckPure
        [["S.No", "Mode of Payment", "Amount", "Payment Due [Date]"],
         ["1", "Cheque", "1000", "22-Feb-25"]]
        (fun _ => none) ⟨2025, 2, 19⟩ :=
  run_check_deterministic _ _ _ _ _ _ rfl rfl rfl

end ReminderSys
